import Mathlib

/-!
Shallow embedding of the open-webui retrieval core:
the extraction-strategy dispatcher (`Loader._get_loader`), the two remote
adapters (`TikaLoader.load`, `OmniparseLoader.load`), the normalisation pass
(`Loader.load`) from `backend/open_webui/retrieval/loaders/main.py`, and the
web search-result filter (`get_filtered_results`) from
`backend/open_webui/retrieval/web/main.py`.

Machine strings are Lean `String`s; Python `None` is `Option.none`; Python
dictionaries that are only read by key are association lists; a Python call
that can raise is a Lean function into `Except String`.  External HTTP traffic
is made explicit: each adapter takes the (already received) transport outcome
as an argument, so its response handling is a pure function of that outcome.
-/

/-- Python `s.split(sep)` for a one-character separator `sep`, on the
character list of `s`: splitting the empty string yields `[[]]`, and the
result always has at least one element (so `[-1]` indexing never fails). -/
def splitOnChar : List Char → Char → List (List Char)
  | [], _ => [[]]
  | c :: cs, sep =>
    if c = sep then [] :: splitOnChar cs sep
    else
      match splitOnChar cs sep with
      | [] => [[c]]
      | w :: ws => (c :: w) :: ws

/-- Python `str.lower()` on a character list (ASCII case folding). -/
def pyLower (s : List Char) : String :=
  String.mk (s.map Char.toLower)

/-- The extension computed by `Loader._get_loader`:
`filename.split(".")[-1].lower()`. -/
def fileExtOf (filename : String) : Option String :=
  ((splitOnChar filename.data '.').getLast?).map pyLower

/-- Python truthiness of an optional string: `None` and `""` are falsy. -/
def truthyStr : Option String → Bool
  | none => false
  | some s => s != ""

/-- Python `h.find(pat) >= 0`: `pat` occurs as a substring of `h`. -/
def pyFindNonneg (pat : List Char) : List Char → Bool
  | [] => pat.isEmpty
  | c :: t => List.isPrefixOf pat (c :: t) || pyFindNonneg pat t

/-- The test `file_content_type and file_content_type.find("text/") >= 0`
from `Loader._get_loader`: the declared MIME type is truthy and contains
`"text/"` as a substring. -/
def mimeTextLike : Option String → Bool
  | none => false
  | some ct => (ct != "") && pyFindNonneg "text/".data ct.data

/-- Python `x in l` where `x` may be `None` (then always `False`). -/
def optMem (o : Option String) (l : List String) : Bool :=
  match o with
  | none => false
  | some s => l.contains s

/-- The module-level `known_source_ext` list of
`backend/open_webui/retrieval/loaders/main.py`, verbatim (including the
duplicated `"hs"`). -/
def known_source_ext : List String :=
  ["go", "py", "java", "sh", "bat", "ps1", "cmd", "js", "ts", "css", "cpp",
   "hpp", "h", "c", "cs", "sql", "log", "ini", "pl", "pm", "r", "dart",
   "dockerfile", "env", "php", "hs", "hsc", "lua", "nginxconf", "conf", "m",
   "mm", "plsql", "perl", "rb", "rs", "db2", "scala", "bash", "swift", "vue",
   "svelte", "msg", "ex", "exs", "erl", "tsx", "jsx", "hs", "lhs", "json"]

/-- The keyword options `Loader` reads from `self.kwargs`; an entry that the
caller did not pass is `none` (Python `kwargs.get` returns `None`). -/
structure Kwargs where
  TIKA_SERVER_URL : Option String
  DOCUMENT_INTELLIGENCE_ENDPOINT : Option String
  DOCUMENT_INTELLIGENCE_KEY : Option String
  PDF_EXTRACT_IMAGES : Option Bool
  deriving DecidableEq, Repr

/-- The loader object `Loader._get_loader` returns: one constructor per
loader class constructed in the source, holding exactly the constructor
arguments passed there.  `TikaLoader` is a class defined in the module; the
dispatcher never constructs it, but it is part of the loader vocabulary. -/
inductive LoaderChoice where
  | TextLoader (file_path : String) (autodetect_encoding : Bool)
  | OmniparseLoader (url : Option String) (filename : String)
      (file_path : String) (mime_type : Option String)
  | TikaLoader (url : Option String) (file_path : String)
      (mime_type : Option String)
  | AzureAIDocumentIntelligenceLoader (file_path : String)
      (api_endpoint : Option String) (api_key : Option String)
  | PyPDFLoader (file_path : String) (extract_images : Option Bool)
  | CSVLoader (file_path : String)
  | UnstructuredRSTLoader (file_path : String) (mode : String)
  | UnstructuredXMLLoader (file_path : String)
  | BSHTMLLoader (file_path : String) (open_encoding : String)
  | UnstructuredEPubLoader (file_path : String)
  | Docx2txtLoader (file_path : String)
  | UnstructuredExcelLoader (file_path : String)
  | UnstructuredPowerPointLoader (file_path : String)
  | OutlookMessageLoader (file_path : String)
  deriving DecidableEq, Repr

/-- The branch cascade of `Loader._get_loader` after the extension has been
computed, translated condition for condition.  Note the Python comparisons:
`self.kwargs.get(k) != ""` is `True` when the entry is absent (`None != ""`),
and `file_content_type == "..."` is `False` when the MIME type is `None`. -/
def Loader.dispatch (engine : String) (kwargs : Kwargs) (filename : String)
    (file_content_type : Option String) (file_path : String)
    (file_ext : String) : LoaderChoice :=
  if engine = "tika" ∧ truthyStr kwargs.TIKA_SERVER_URL ∧ file_ext = "pdf" then
    if file_ext ∈ known_source_ext ∨ mimeTextLike file_content_type then
      .TextLoader file_path true
    else
      .OmniparseLoader kwargs.TIKA_SERVER_URL filename file_path
        file_content_type
  else if engine = "document_intelligence" ∧
      kwargs.DOCUMENT_INTELLIGENCE_ENDPOINT ≠ some "" ∧
      kwargs.DOCUMENT_INTELLIGENCE_KEY ≠ some "" ∧
      (file_ext ∈ ["pdf", "xls", "xlsx", "docx", "ppt", "pptx"] ∨
        optMem file_content_type
          ["application/vnd.ms-excel",
           "application/vnd.openxmlformats-officedocument.spreadsheetml.sheet",
           "application/vnd.openxmlformats-officedocument.wordprocessingml.document",
           "application/vnd.ms-powerpoint",
           "application/vnd.openxmlformats-officedocument.presentationml.presentation"]) then
    .AzureAIDocumentIntelligenceLoader file_path
      kwargs.DOCUMENT_INTELLIGENCE_ENDPOINT kwargs.DOCUMENT_INTELLIGENCE_KEY
  else if file_ext = "pdf" then
    .PyPDFLoader file_path kwargs.PDF_EXTRACT_IMAGES
  else if file_ext = "csv" then
    .CSVLoader file_path
  else if file_ext = "rst" then
    .UnstructuredRSTLoader file_path "elements"
  else if file_ext = "xml" then
    .UnstructuredXMLLoader file_path
  else if file_ext ∈ ["htm", "html"] then
    .BSHTMLLoader file_path "unicode_escape"
  else if file_ext = "md" then
    .TextLoader file_path true
  else if file_content_type = some "application/epub+zip" then
    .UnstructuredEPubLoader file_path
  else if file_content_type =
      some "application/vnd.openxmlformats-officedocument.wordprocessingml.document" ∨
      file_ext = "docx" then
    .Docx2txtLoader file_path
  else if optMem file_content_type
      ["application/vnd.ms-excel",
       "application/vnd.openxmlformats-officedocument.spreadsheetml.sheet"] ∨
      file_ext ∈ ["xls", "xlsx"] then
    .UnstructuredExcelLoader file_path
  else if optMem file_content_type
      ["application/vnd.ms-powerpoint",
       "application/vnd.openxmlformats-officedocument.presentationml.presentation"] ∨
      file_ext ∈ ["ppt", "pptx"] then
    .UnstructuredPowerPointLoader file_path
  else if file_ext = "msg" then
    .OutlookMessageLoader file_path
  else if file_ext ∈ known_source_ext ∨ mimeTextLike file_content_type then
    .TextLoader file_path true
  else
    .TextLoader file_path true

/-- `Loader._get_loader`: computes `filename.split(".")[-1].lower()` (the
`[-1]` indexing of an empty list would raise, modelled as `Except.error`) and
feeds it to the branch cascade. -/
def Loader.get_loader (engine : String) (kwargs : Kwargs) (filename : String)
    (file_content_type : Option String) (file_path : String) :
    Except String LoaderChoice :=
  match (splitOnChar filename.data '.').getLast? with
  | none => .error "IndexError: list index out of range"
  | some ext =>
    .ok (Loader.dispatch engine kwargs filename file_content_type file_path
      (pyLower ext))

/-- A metadata value as the loaders store it: Python strings, ints and
`None` all occur as dictionary values. -/
inductive MetaVal where
  | str (s : String)
  | int (n : Nat)
  | null
  deriving DecidableEq, Repr

/-- A langchain `Document`: page content plus a metadata dictionary. -/
structure Document where
  page_content : String
  metadata : List (String × MetaVal)
  deriving DecidableEq, Repr

/-- Python dictionary assignment `m[k] = v` on an association list:
replace the value when the key is present, otherwise append the entry. -/
def dictSet (k : String) (v : MetaVal) (m : List (String × MetaVal)) :
    List (String × MetaVal) :=
  if m.any (fun p => p.1 == k) then
    m.map (fun p => if p.1 == k then (k, v) else p)
  else
    m ++ [(k, v)]

/-- The transport outcome `TikaLoader.load` reacts to: the HTTP status class
(`r.ok`), the reason phrase (`r.reason`), and the body already parsed as a
JSON object (`r.json()`), whose relevant values are strings. -/
structure TikaHttpResponse where
  ok : Bool
  reason : String
  json : List (String × String)
  deriving DecidableEq, Repr

/-- Response handling of `TikaLoader.load`: the request headers are
`{"Content-Type": mime}` when a MIME type was given, else `{}`; on `r.ok` the
text is `json.get("X-TIKA:content", "<No text content found>")` and a
`Content-Type` value in the body overwrites the header entry; otherwise an
exception carrying the reason phrase is raised. -/
def TikaLoader.load (mime_type : Option String) (r : TikaHttpResponse) :
    Except String (List Document) :=
  let headers : List (String × MetaVal) :=
    match mime_type with
    | some m => [("Content-Type", MetaVal.str m)]
    | none => []
  if r.ok then
    let text := (List.lookup "X-TIKA:content" r.json).getD
      "<No text content found>"
    let headers2 :=
      match List.lookup "Content-Type" r.json with
      | some ct => dictSet "Content-Type" (MetaVal.str ct) headers
      | none => headers
    .ok [⟨text, headers2⟩]
  else
    .error ("Error calling Tika: " ++ r.reason)

/-- The final HTTP response visible to `OmniparseLoader.load` when the POST
itself succeeded at the transport level. -/
structure OmniHttpResponse where
  status_code : Nat
  reason : String
  url : String
  content_type : Option String
  text : String
  deriving DecidableEq, Repr

/-- Outcome of the multipart POST in `OmniparseLoader.load`: either a
transport-level failure (a `requests.RequestException` with its message) or a
received response. -/
inductive TransportResult where
  | failure (msg : String)
  | success (r : OmniHttpResponse)
  deriving DecidableEq, Repr

/-- `requests.Response.raise_for_status` (external HTTP library, behaviour
fixed by it): raises an `HTTPError` — a `RequestException` — exactly for 4xx
client errors and 5xx server errors, with a message built from the status
code, the reason phrase and the url; all other statuses pass through. -/
def raise_for_status (r : OmniHttpResponse) : Option String :=
  if 400 ≤ r.status_code ∧ r.status_code < 500 then
    some (toString r.status_code ++ " Client Error: " ++ r.reason ++
      " for url: " ++ r.url)
  else if 500 ≤ r.status_code ∧ r.status_code < 600 then
    some (toString r.status_code ++ " Server Error: " ++ r.reason ++
      " for url: " ++ r.url)
  else
    none

/-- Optional response header as a metadata value (`headers.get` may be
`None`). -/
def metaOfOpt : Option String → MetaVal
  | some s => MetaVal.str s
  | none => MetaVal.null

/-- `OmniparseLoader.load` after the multipart POST: a transport failure or a
`raise_for_status` error is caught and re-raised as
`ValueError("API请求失败: " + str(e))`; otherwise one document is returned
whose text is the response body and whose metadata is exactly the source
path, the filename, the response `Content-Type` header and the status code. -/
def OmniparseLoader.load (file_path filename : String)
    (resp : TransportResult) : Except String (List Document) :=
  match resp with
  | .failure msg => .error ("API请求失败: " ++ msg)
  | .success r =>
    match raise_for_status r with
    | some msg => .error ("API请求失败: " ++ msg)
    | none =>
      .ok [⟨r.text,
        [("source", MetaVal.str file_path),
         ("filename", MetaVal.str filename),
         ("content_type", metaOfOpt r.content_type),
         ("status_code", MetaVal.int r.status_code)]⟩]

/-- `Loader.load` after the selected strategy ran: `ftfy.fix_text` (an
external pure text-repair function, passed as a parameter) is applied to each
document's page content, its metadata is kept; an exception from the strategy
propagates. -/
def Loader.load (fix_text : String → String)
    (docs : Except String (List Document)) : Except String (List Document) :=
  match docs with
  | .error e => .error e
  | .ok ds =>
    .ok (ds.map fun doc => ⟨fix_text doc.page_content, doc.metadata⟩)

/-- A raw web-search hit as `get_filtered_results` reads it: a loosely typed
record with optional `url`, `link`, `title` and `snippet` fields. -/
structure SearchHit where
  url : Option String
  link : Option String
  title : Option String
  snippet : Option String
  deriving DecidableEq, Repr

/-- `result.get("url") or result.get("link", "")`: the `url` field when it is
truthy (present and non-empty), else the `link` field defaulted to `""`. -/
def hitUrl (result : SearchHit) : String :=
  match result.url with
  | some s => if s = "" then result.link.getD "" else s
  | none => result.link.getD ""

/-- `get_filtered_results` from `backend/open_webui/retrieval/web/main.py`.
The URL validity check (`validators.url`) and the host extraction
(`urlparse(url).netloc`) are external library functions, passed as
parameters.  A hit is kept when its URL is valid and, when `filter_list` is
truthy (present and non-empty — Python `if filter_list:`), its host ends with
at least one entry. -/
def get_filtered_results (validators_url_check : String → Bool)
    (netloc : String → String) (results : List SearchHit)
    (filter_list : Option (List String)) : List SearchHit :=
  results.filter fun result =>
    let url := hitUrl result
    validators_url_check url &&
      (match filter_list with
       | none => true
       | some fl =>
         if fl.isEmpty then true
         else fl.any fun filtered_domain =>
           List.isSuffixOf filtered_domain.data (netloc url).data)

/-- Modelled from the spec: the syntactic URL well-formedness check of the
external `validators.url` library function (its code is not part of this
repository).  Per the spec it is a check against standard URL grammar, "not
merely non-empty": this model accepts an http or https scheme followed by a
non-empty host of alphanumeric characters, dots and hyphens. -/
def validators_url_model (url : String) : Bool :=
  let cs := url.data
  let rest : Option (List Char) :=
    if List.isPrefixOf "http://".data cs then some (cs.drop 7)
    else if List.isPrefixOf "https://".data cs then some (cs.drop 8)
    else none
  match rest with
  | none => false
  | some r =>
    let host := r.takeWhile fun c => c != '/' && c != '?' && c != '#'
    !host.isEmpty && host.all fun c => c.isAlphanum || c == '.' || c == '-'

/-- Modelled from the spec: host-component extraction,
`urllib.parse.urlparse(url).netloc` of the external standard library — the
part after the `//` that follows the scheme, up to the next `/`, `?` or `#`
(sufficient for the http and https URLs that pass the validity check). -/
def urlparse_netloc (url : String) : String :=
  let cs := url.data
  let rest : List Char :=
    if List.isPrefixOf "http://".data cs then cs.drop 7
    else if List.isPrefixOf "https://".data cs then cs.drop 8
    else []
  String.mk (rest.takeWhile fun c => c != '/' && c != '?' && c != '#')

/-! ## Helper lemmas -/

theorem splitOnChar_ne_nil (l : List Char) (sep : Char) :
    splitOnChar l sep ≠ [] := by
  induction l with
  | nil => simp [splitOnChar]
  | cons c cs ih =>
    unfold splitOnChar
    split
    · simp
    · split <;> simp

/-- Extension extraction relates `Loader.get_loader` to `Loader.dispatch`. -/
theorem get_loader_eq_dispatch (engine : String) (kwargs : Kwargs)
    (filename : String) (file_content_type : Option String)
    (file_path : String) (ext : String)
    (hext : fileExtOf filename = some ext) :
    Loader.get_loader engine kwargs filename file_content_type file_path
      = .ok (Loader.dispatch engine kwargs filename file_content_type
          file_path ext) := by
  unfold fileExtOf at hext
  obtain ⟨e, hlast, hpy⟩ := Option.map_eq_some'.mp hext
  unfold Loader.get_loader
  rw [hlast]
  exact congrArg Except.ok (by rw [hpy])

/-- Shape of the dispatch for engine `"tika"`, a truthy server url and
extension `"pdf"`: the branch reduces to the text-likeness test. -/
theorem dispatch_tika_pdf (kwargs : Kwargs) (filename : String)
    (file_content_type : Option String) (file_path : String)
    (hurl : truthyStr kwargs.TIKA_SERVER_URL = true) :
    Loader.dispatch "tika" kwargs filename file_content_type file_path "pdf"
      = if mimeTextLike file_content_type then
          .TextLoader file_path true
        else
          .OmniparseLoader kwargs.TIKA_SERVER_URL filename file_path
            file_content_type := by
  unfold Loader.dispatch
  rw [if_pos ⟨rfl, hurl, rfl⟩]
  cases hm : mimeTextLike file_content_type with
  | true => simp [known_source_ext]
  | false => simp [known_source_ext]

/-- Shape of the dispatch for engine `"document_intelligence"` and extension
`"docx"`: the remote layout branch is taken exactly when neither credential
entry equals the empty string; otherwise the local chain picks the epub
loader (epub MIME) or the docx loader. -/
theorem dispatch_docint_docx (kwargs : Kwargs) (filename : String)
    (file_content_type : Option String) (file_path : String) :
    Loader.dispatch "document_intelligence" kwargs filename file_content_type
        file_path "docx"
      = if kwargs.DOCUMENT_INTELLIGENCE_ENDPOINT ≠ some "" ∧
            kwargs.DOCUMENT_INTELLIGENCE_KEY ≠ some "" then
          .AzureAIDocumentIntelligenceLoader file_path
            kwargs.DOCUMENT_INTELLIGENCE_ENDPOINT
            kwargs.DOCUMENT_INTELLIGENCE_KEY
        else if file_content_type = some "application/epub+zip" then
          .UnstructuredEPubLoader file_path
        else
          .Docx2txtLoader file_path := by
  unfold Loader.dispatch
  rw [if_neg (by simp)]
  by_cases hE : kwargs.DOCUMENT_INTELLIGENCE_ENDPOINT = some "" <;>
    by_cases hK : kwargs.DOCUMENT_INTELLIGENCE_KEY = some "" <;>
      by_cases hepub : file_content_type = some "application/epub+zip" <;>
        simp [hE, hK, hepub]

/-! ## C1 -/

/-- C1: strategy selection is total.  For every filename, declared MIME type
(possibly absent) and engine configuration (any engine string and any keyword
options, including missing entries), `Loader.get_loader` returns `Except.ok`
of exactly one loader and never signals an error; only the selected loader's
own load may fail. -/
theorem loader_selection_total (engine : String) (kwargs : Kwargs)
    (filename : String) (file_content_type : Option String)
    (file_path : String) :
    ∃! l : LoaderChoice,
      Loader.get_loader engine kwargs filename file_content_type file_path
        = .ok l := by
  have h1 : (splitOnChar filename.data '.').getLast?.isSome := by
    rw [List.getLast?_isSome]
    exact splitOnChar_ne_nil _ _
  obtain ⟨e, hlast⟩ := Option.isSome_iff_exists.mp h1
  have hfe : fileExtOf filename = some (pyLower e) := by
    unfold fileExtOf
    rw [hlast]
    rfl
  refine ⟨Loader.dispatch engine kwargs filename file_content_type file_path
    (pyLower e),
    get_loader_eq_dispatch engine kwargs filename file_content_type file_path
      (pyLower e) hfe, ?_⟩
  intro y hy
  rw [get_loader_eq_dispatch engine kwargs filename file_content_type
    file_path (pyLower e) hfe] at hy
  injection hy with h
  exact h.symm

/-! ## C2 -/

/-- C2 (amended): with engine `"tika"`, a truthy `TIKA_SERVER_URL` and file
extension exactly `"pdf"`, the dispatcher selects the local plain-text
strategy iff the extension is in `known_source_ext` or the declared MIME type
CONTAINS `"text/"` as a substring (Python `find(...) >= 0`, not a prefix
test); otherwise it selects the `OmniparseLoader` multipart-POST adapter
(not the PUT-based `TikaLoader`). -/
theorem tika_pdf_selection (kwargs : Kwargs) (filename : String)
    (file_content_type : Option String) (file_path : String)
    (hext : fileExtOf filename = some "pdf")
    (hurl : truthyStr kwargs.TIKA_SERVER_URL = true) :
    (Loader.get_loader "tika" kwargs filename file_content_type file_path
        = .ok (.TextLoader file_path true)
      ↔ ("pdf" ∈ known_source_ext ∨ mimeTextLike file_content_type = true))
    ∧ (mimeTextLike file_content_type = false →
        Loader.get_loader "tika" kwargs filename file_content_type file_path
          = .ok (.OmniparseLoader kwargs.TIKA_SERVER_URL filename file_path
              file_content_type)) := by
  rw [get_loader_eq_dispatch _ _ _ _ _ _ hext,
    dispatch_tika_pdf kwargs filename file_content_type file_path hurl]
  cases hm : mimeTextLike file_content_type with
  | true => simp
  | false => simp [known_source_ext]

/-- Concrete run of the amended C2 statement: MIME `application/pdf` is not
text-like, so the multipart-POST adapter is selected. -/
theorem tika_pdf_selection_witness :
    Loader.get_loader "tika" ⟨some "http://t", none, none, none⟩ "b.pdf"
        (some "application/pdf") "/f"
      = .ok (.OmniparseLoader (some "http://t") "b.pdf" "/f"
          (some "application/pdf")) :=
  (tika_pdf_selection ⟨some "http://t", none, none, none⟩ "b.pdf"
    (some "application/pdf") "/f" (by decide) (by decide)).2 (by decide)

/-- C2 as stated fails on the code: for `a.pdf` with MIME `application/pdf`
the dispatcher returns the `OmniparseLoader` (multipart POST), not the
PUT-based `TikaLoader`; and for a MIME that merely contains `"text/"` without
starting with it, the local text loader is selected. -/
theorem tika_pdf_selection_cex :
    Loader.get_loader "tika" ⟨some "http://t", none, none, none⟩ "a.pdf"
        (some "application/pdf") "/f"
      = .ok (.OmniparseLoader (some "http://t") "a.pdf" "/f"
          (some "application/pdf"))
    ∧ Loader.get_loader "tika" ⟨some "http://t", none, none, none⟩ "a.pdf"
        (some "application/text/x") "/f"
      = .ok (.TextLoader "/f" true)
    ∧ List.isPrefixOf "text/".data "application/text/x".data = false :=
  ⟨rfl, rfl, by decide⟩

/-! ## C3 -/

/-- C3 (amended): with engine `"document_intelligence"` and extension
`"docx"`, the dispatcher selects the remote layout adapter iff neither the
endpoint entry nor the key entry equals the empty string — an ABSENT entry
passes the check, because Python `kwargs.get(k) != ""` is true for `None`;
when either entry is the empty string, selection falls through to the local
chain, which picks the local docx strategy unless the declared MIME type is
the epub MIME. -/
theorem docint_docx_selection (kwargs : Kwargs) (filename : String)
    (file_content_type : Option String) (file_path : String)
    (hext : fileExtOf filename = some "docx") :
    (Loader.get_loader "document_intelligence" kwargs filename
        file_content_type file_path
        = .ok (.AzureAIDocumentIntelligenceLoader file_path
            kwargs.DOCUMENT_INTELLIGENCE_ENDPOINT
            kwargs.DOCUMENT_INTELLIGENCE_KEY)
      ↔ (kwargs.DOCUMENT_INTELLIGENCE_ENDPOINT ≠ some "" ∧
          kwargs.DOCUMENT_INTELLIGENCE_KEY ≠ some ""))
    ∧ ((kwargs.DOCUMENT_INTELLIGENCE_ENDPOINT = some "" ∨
          kwargs.DOCUMENT_INTELLIGENCE_KEY = some "") →
        file_content_type ≠ some "application/epub+zip" →
        Loader.get_loader "document_intelligence" kwargs filename
            file_content_type file_path
          = .ok (.Docx2txtLoader file_path)) := by
  rw [get_loader_eq_dispatch _ _ _ _ _ _ hext,
    dispatch_docint_docx kwargs filename file_content_type file_path]
  by_cases hE : kwargs.DOCUMENT_INTELLIGENCE_ENDPOINT = some "" <;>
    by_cases hK : kwargs.DOCUMENT_INTELLIGENCE_KEY = some "" <;>
      by_cases hepub : file_content_type = some "application/epub+zip" <;>
        simp [hE, hK, hepub]

/-- Concrete run of the amended C3 statement: an empty-string credential
makes the dispatcher fall through to the local docx loader. -/
theorem docint_docx_selection_witness :
    Loader.get_loader "document_intelligence"
        ⟨none, some "https://di.example", some "", none⟩ "a.docx" none "/d"
      = .ok (.Docx2txtLoader "/d") :=
  (docint_docx_selection ⟨none, some "https://di.example", some "", none⟩
    "a.docx" none "/d" (by decide)).2 (Or.inr rfl) (by decide)

/-- C3 as stated fails on the code: with the credential ABSENT (and the
endpoint set), the remote layout adapter is still selected — Python
`None != ""` is true — instead of falling through to the local docx
strategy. -/
theorem docint_docx_selection_cex :
    Loader.get_loader "document_intelligence"
        ⟨none, some "https://di.example", none, none⟩ "a.docx" none "/d"
      = .ok (.AzureAIDocumentIntelligenceLoader "/d"
          (some "https://di.example") none)
    ∧ (Except.ok (LoaderChoice.AzureAIDocumentIntelligenceLoader "/d"
          (some "https://di.example") none) : Except String LoaderChoice)
      ≠ .ok (.Docx2txtLoader "/d") :=
  ⟨rfl, by simp⟩

/-! ## C4 -/

/-- C4: on a successful HTTP status with a JSON object body,
`TikaLoader.load` returns exactly one document; its text is the value of the
`"X-TIKA:content"` key, defaulting to the literal `"<No text content found>"`
when that key is absent, and the metadata's `Content-Type` entry is the JSON
body's `Content-Type` value when present (overwriting the request header
value), else the declared MIME type when one was supplied. -/
theorem tika_load_success (mime_type : Option String) (r : TikaHttpResponse)
    (hok : r.ok = true) :
    ∃ meta,
      TikaLoader.load mime_type r
        = .ok [⟨(List.lookup "X-TIKA:content" r.json).getD
            "<No text content found>", meta⟩]
      ∧ List.lookup "Content-Type" meta
          = (match List.lookup "Content-Type" r.json with
             | some ct => some (MetaVal.str ct)
             | none => mime_type.map MetaVal.str) := by
  cases hct : List.lookup "Content-Type" r.json with
  | none =>
    cases mime_type with
    | none =>
      refine ⟨[], ?_, ?_⟩
      · unfold TikaLoader.load
        rw [hok, hct]
        rfl
      · rfl
    | some m =>
      refine ⟨[("Content-Type", MetaVal.str m)], ?_, ?_⟩
      · unfold TikaLoader.load
        rw [hok, hct]
        rfl
      · rfl
  | some ct =>
    cases mime_type with
    | none =>
      refine ⟨[("Content-Type", MetaVal.str ct)], ?_, ?_⟩
      · unfold TikaLoader.load
        rw [hok, hct]
        rfl
      · rfl
    | some m =>
      refine ⟨[("Content-Type", MetaVal.str ct)], ?_, ?_⟩
      · unfold TikaLoader.load
        rw [hok, hct]
        rfl
      · rfl

/-- Concrete run of C4: a 200 response carrying `X-TIKA:content` yields one
document with that text, and the request MIME type remains the
`Content-Type` metadata entry. -/
theorem tika_load_success_witness :
    ∃ meta,
      TikaLoader.load (some "application/pdf")
          ⟨true, "OK", [("X-TIKA:content", "hello")]⟩
        = .ok [⟨"hello", meta⟩]
      ∧ List.lookup "Content-Type" meta
          = some (MetaVal.str "application/pdf") := by
  obtain ⟨meta, h1, h2⟩ := tika_load_success (some "application/pdf")
    ⟨true, "OK", [("X-TIKA:content", "hello")]⟩ rfl
  exact ⟨meta, h1, h2⟩

/-! ## C5 -/

/-- C5: on a non-successful HTTP status, `TikaLoader.load` raises an error
whose message carries the HTTP reason phrase, performs no retry (it is a
function of the single response), and returns no documents. -/
theorem tika_load_failure (mime_type : Option String) (r : TikaHttpResponse)
    (hok : r.ok = false) :
    TikaLoader.load mime_type r
      = .error ("Error calling Tika: " ++ r.reason)
    ∧ ∀ docs, TikaLoader.load mime_type r ≠ .ok docs := by
  have h1 : TikaLoader.load mime_type r
      = .error ("Error calling Tika: " ++ r.reason) := by
    unfold TikaLoader.load
    rw [hok]
    rfl
  refine ⟨h1, fun docs h => ?_⟩
  rw [h1] at h
  exact Except.noConfusion h

/-- Concrete run of C5: a 500 response with reason phrase
`Internal Server Error` produces the translated error and no documents. -/
theorem tika_load_failure_witness :
    TikaLoader.load none ⟨false, "Internal Server Error", []⟩
      = .error ("Error calling Tika: " ++ "Internal Server Error") :=
  (tika_load_failure none ⟨false, "Internal Server Error", []⟩ rfl).1

/-! ## C6 -/

/-- C6 (amended): `OmniparseLoader.load` raises an error wrapping the
underlying transport error message iff the multipart POST suffers a
transport-level failure or the response status is a 4xx or 5xx error (the
statuses for which `raise_for_status` raises; a 1xx/2xx/3xx final status does
not raise); otherwise it returns exactly one document whose text is the
response body and whose metadata records exactly the source path, the
filename, the response content type and the status code. -/
theorem omniparse_load_spec (file_path filename : String)
    (resp : TransportResult) :
    ((OmniparseLoader.load file_path filename resp).isOk = true
      ↔ ∃ r, resp = .success r ∧ raise_for_status r = none)
    ∧ (∀ msg, resp = .failure msg →
        OmniparseLoader.load file_path filename resp
          = .error ("API请求失败: " ++ msg))
    ∧ (∀ r msg, resp = .success r → raise_for_status r = some msg →
        OmniparseLoader.load file_path filename resp
          = .error ("API请求失败: " ++ msg))
    ∧ (∀ r, resp = .success r → raise_for_status r = none →
        OmniparseLoader.load file_path filename resp
          = .ok [⟨r.text,
              [("source", MetaVal.str file_path),
               ("filename", MetaVal.str filename),
               ("content_type", metaOfOpt r.content_type),
               ("status_code", MetaVal.int r.status_code)]⟩])
    ∧ (∀ r : OmniHttpResponse,
        raise_for_status r = none ↔
          (r.status_code < 400 ∨ 600 ≤ r.status_code)) := by
  refine ⟨?_, ?_, ?_, ?_, ?_⟩
  · cases resp with
    | failure msg => simp [OmniparseLoader.load, Except.isOk, Except.toBool]
    | success r =>
      cases hrs : raise_for_status r with
      | none => simp [OmniparseLoader.load, Except.isOk, Except.toBool, hrs]
      | some m => simp [OmniparseLoader.load, Except.isOk, Except.toBool, hrs]
  · intro msg h
    subst h
    rfl
  · intro r msg h hrs
    subst h
    simp [OmniparseLoader.load, hrs]
  · intro r h hrs
    subst h
    simp [OmniparseLoader.load, hrs]
  · intro r
    unfold raise_for_status
    by_cases h1 : 400 ≤ r.status_code ∧ r.status_code < 500
    · rw [if_pos h1]
      simp
      omega
    · rw [if_neg h1]
      by_cases h2 : 500 ≤ r.status_code ∧ r.status_code < 600
      · rw [if_pos h2]
        simp
        omega
      · rw [if_neg h2]
        simp
        omega

/-- Concrete run of the amended C6 statement: a transport failure is wrapped
into the translated error. -/
theorem omniparse_load_spec_witness :
    OmniparseLoader.load "/p" "f.pdf" (.failure "Connection refused")
      = .error ("API请求失败: " ++ "Connection refused") :=
  (omniparse_load_spec "/p" "f.pdf" (.failure "Connection refused")).2.1
    "Connection refused" rfl

/-- C6 as stated fails on the code: a 304 response has a non-2xx status, yet
`raise_for_status` does not raise for it, so `OmniparseLoader.load` returns a
document instead of an error. -/
theorem omniparse_load_cex :
    OmniparseLoader.load "/p" "f.pdf"
        (.success ⟨304, "Not Modified", "http://u", none, ""⟩)
      = .ok [⟨"", [("source", MetaVal.str "/p"),
          ("filename", MetaVal.str "f.pdf"),
          ("content_type", MetaVal.null),
          ("status_code", MetaVal.int 304)]⟩]
    ∧ ¬ (200 ≤ (304 : Nat) ∧ (304 : Nat) < 300) :=
  ⟨rfl, by decide⟩

/-! ## C7 -/

/-- C7: with the allowlist absent, `get_filtered_results` returns exactly the
hits whose URL (the `url` field, falling back to `link`) passes the validity
check, in their original input order (a sublist of the input); an invalid URL
is silently dropped and no input hit is modified. -/
theorem resultfilter_no_allowlist (validators_url_check : String → Bool)
    (netloc : String → String) (results : List SearchHit) :
    get_filtered_results validators_url_check netloc results none
      = results.filter (fun result => validators_url_check (hitUrl result))
    ∧ List.Sublist
        (get_filtered_results validators_url_check netloc results none)
        results := by
  have h1 : get_filtered_results validators_url_check netloc results none
      = results.filter (fun result =>
          validators_url_check (hitUrl result)) := by
    unfold get_filtered_results
    simp
  exact ⟨h1, h1 ▸ List.filter_sublist results⟩

/-! ## C8 -/

/-- C8 (amended): with a supplied NON-EMPTY allowlist, `get_filtered_results`
keeps a hit iff its URL is valid and the URL's host ends with at least one
allowlist entry; in particular, with hits `a.example.com`, `not a url` and
`b.org` and allowlist `["example.com"]`, only the first hit is returned.  (A
supplied EMPTY allowlist is falsy in Python and disables the domain check.) -/
theorem resultfilter_allowlist (validators_url_check : String → Bool)
    (netloc : String → String) (results : List SearchHit)
    (filter_list : List String) (hne : filter_list ≠ []) :
    get_filtered_results validators_url_check netloc results
        (some filter_list)
      = results.filter (fun result =>
          validators_url_check (hitUrl result) &&
            filter_list.any (fun filtered_domain =>
              List.isSuffixOf filtered_domain.data
                (netloc (hitUrl result)).data))
    ∧ get_filtered_results validators_url_model urlparse_netloc
        [⟨some "http://a.example.com", none, none, none⟩,
         ⟨some "not a url", none, none, none⟩,
         ⟨some "http://b.org", none, none, none⟩] (some ["example.com"])
      = [⟨some "http://a.example.com", none, none, none⟩] := by
  have hemp : filter_list.isEmpty = false := by
    rw [List.isEmpty_eq_false]
    exact hne
  constructor
  · unfold get_filtered_results
    simp [hemp]
  · decide

/-- Concrete run of the amended C8 statement on a two-hit list. -/
theorem resultfilter_allowlist_witness :
    get_filtered_results validators_url_model urlparse_netloc
        [⟨some "http://a.example.com", none, none, none⟩,
         ⟨some "http://b.org", none, none, none⟩] (some ["example.com"])
      = ([⟨some "http://a.example.com", none, none, none⟩,
          ⟨some "http://b.org", none, none, none⟩] : List SearchHit).filter
          (fun result => validators_url_model (hitUrl result) &&
            (["example.com"].any (fun filtered_domain =>
              List.isSuffixOf filtered_domain.data
                (urlparse_netloc (hitUrl result)).data))) :=
  (resultfilter_allowlist validators_url_model urlparse_netloc
    [⟨some "http://a.example.com", none, none, none⟩,
     ⟨some "http://b.org", none, none, none⟩] ["example.com"]
    (by decide)).1

/-- C8 as stated fails on the code for a supplied EMPTY allowlist: the hit is
kept even though its host ends with no allowlist entry (there are none),
because Python `if filter_list:` treats `[]` as absent. -/
theorem resultfilter_allowlist_cex :
    get_filtered_results validators_url_model urlparse_netloc
        [⟨some "http://a.example.com", none, none, none⟩] (some [])
      = [⟨some "http://a.example.com", none, none, none⟩]
    ∧ ([] : List String).any (fun filtered_domain =>
        List.isSuffixOf filtered_domain.data
          (urlparse_netloc "http://a.example.com").data) = false :=
  ⟨by decide, rfl⟩

/-! ## C9 -/

/-- C9: `Loader.load` applies the encoding-repair function to each document's
text and nothing else: the result has the same number of documents in the
same order, each with exactly the strategy's metadata and with the repaired
text. -/
theorem loader_load_normalizes (fix_text : String → String)
    (docs : List Document) :
    Loader.load fix_text (.ok docs)
      = .ok (docs.map fun doc => ⟨fix_text doc.page_content, doc.metadata⟩)
    ∧ (docs.map fun doc =>
        (⟨fix_text doc.page_content, doc.metadata⟩ : Document)).length
      = docs.length
    ∧ ∀ i : Nat,
        (docs.map fun doc =>
          (⟨fix_text doc.page_content, doc.metadata⟩ : Document))[i]?
        = (docs[i]?).map fun doc =>
            (⟨fix_text doc.page_content, doc.metadata⟩ : Document) :=
  ⟨rfl, List.length_map _ _, fun i => List.getElem?_map _ _ i⟩

/-! ## C10 -/

/-- C10: a supplied EMPTY allowlist behaves exactly like an absent allowlist:
Python `if filter_list:` is false for `[]`, so every hit with a valid URL is
kept and none is discarded by the domain-suffix check. -/
theorem resultfilter_empty_allowlist (validators_url_check : String → Bool)
    (netloc : String → String) (results : List SearchHit) :
    get_filtered_results validators_url_check netloc results (some [])
      = get_filtered_results validators_url_check netloc results none := rfl
